import Mathlib

/-!
Shallow embedding of `src/platform.ts` (os-release parsing and .NET Core
runtime-id resolution for the platform detection utility).

JavaScript strings are modelled as Lean `String`; the handful of JS string
primitives the source uses (`split`, `trim`, `indexOf`/`substring`,
`startsWith`, `endsWith`) are embedded as structurally recursive functions
over `List Char` so that every definition evaluates in the kernel.
A thrown JS exception is modelled as `Except.error`; the nullable
`linuxFallbackRuntimeId` object with its `getFallbackLinuxRuntimeId()`
method is modelled as `Option String` (the provider's returned string,
with `""` standing for a falsy/empty return).
-/

/-- The literal `unknown` used as the name/version sentinel (platform.ts line 10). -/
def unknownLit : String := "unknown"

/-- Embeds JS `s.startsWith(p)` on the character level: `listStarts cs ps`
is true when `ps` is an initial segment of `cs`. -/
def listStarts : List Char → List Char → Bool
  | _, [] => true
  | [], _ :: _ => false
  | c :: cs, p :: ps => c == p && listStarts cs ps

/-- JS `s.startsWith(p)` for strings. -/
def strStarts (s p : String) : Bool :=
  listStarts s.toList p.toList

/-- JS `s.trim()`: drop whitespace from both ends. -/
def strTrim (s : String) : String :=
  String.mk (((s.toList.dropWhile Char.isWhitespace).reverse.dropWhile Char.isWhitespace).reverse)

/-- Fuel-driven splitter: JS `s.split(sep)` for a non-empty separator.
Each step consumes at least one character, so fuel equal to the input
length always suffices; the fuel-exhausted branch is unreachable for the
initial fuel used in `strSplitOn`. -/
def splitFuel (sep : List Char) : Nat → List Char → List Char → List (List Char)
  | _, [], acc => [acc.reverse]
  | 0, cs, acc => [acc.reverse ++ cs]
  | fuel + 1, c :: cs, acc =>
    if listStarts (c :: cs) sep then
      acc.reverse :: splitFuel sep fuel (List.drop sep.length (c :: cs)) []
    else
      splitFuel sep fuel cs (c :: acc)

/-- JS `s.split(sep)`. An empty separator splits into single characters,
as in JS; the source never passes one (`os.EOL` and `" "` are non-empty). -/
def strSplitOn (s sep : String) : List String :=
  if sep == "" then
    s.toList.map (fun c => String.mk [c])
  else
    (splitFuel sep.toList s.toList.length s.toList []).map String.mk

/-- Embeds platform.ts lines 58-61: `indexOf('=')` plus the two
`substring` calls. Returns `none` when the line has no `=` (the line is
skipped); otherwise the text before the first `=` and the text after it. -/
def splitKeyValue (line : String) : Option (String × String) :=
  if '=' ∈ line.toList then
    some (String.mk (line.toList.takeWhile (fun c => c != '=')),
          String.mk ((line.toList.dropWhile (fun c => c != '=')).drop 1))
  else
    none

/-- Embeds platform.ts lines 63-66: strip one double quote from each end
when the value has length > 1 and both starts and ends with `"`. -/
def stripQuotes (value : String) : String :=
  let cs := value.toList
  if 1 < cs.length && cs.head? == some '"' && cs.getLast? == some '"' then
    String.mk ((cs.drop 1).dropLast)
  else
    value

/-- The `LinuxDistribution` value (platform.ts lines 18-22): `idLike` is
`null` (`none`) when the `ID_LIKE` key was never seen. -/
structure LinuxDistribution where
  name : String
  version : String
  idLike : Option (List String)
deriving DecidableEq, Repr

/-- One `if key === 'ID' / 'VERSION_ID' / 'ID_LIKE'` cascade of
platform.ts lines 68-76, applied to the accumulated (name, version,
idLike) state. -/
def applyKeyValue (key value : String) (name version : String)
    (idLike : Option (List String)) : String × String × Option (List String) :=
  if key == "ID" then (value, version, idLike)
  else if key == "VERSION_ID" then (name, value, idLike)
  else if key == "ID_LIKE" then (name, version, some (strSplitOn value " "))
  else (name, version, idLike)

/-- `name !== unknown && version !== unknown && idLike !== null`
(platform.ts line 78), the early-exit condition of the scan. -/
def scanDone (name version : String) (idLike : Option (List String)) : Bool :=
  name != unknownLit && version != unknownLit && idLike.isSome

/-- The `for (let line of lines)` loop of platform.ts lines 55-82,
with the `break` modelled as returning the accumulated state. Lines
without `=` are skipped; the break test runs only after a key/value line,
exactly as in the source. -/
def scanLines : List String → String → String → Option (List String) → LinuxDistribution
  | [], name, version, idLike => ⟨name, version, idLike⟩
  | line :: rest, name, version, idLike =>
    match splitKeyValue (strTrim line) with
    | none => scanLines rest name version idLike
    | some (key, rawValue) =>
      let value := stripQuotes rawValue
      let s := applyKeyValue key value name version idLike
      if scanDone s.1 s.2.1 s.2.2 then ⟨s.1, s.2.1, s.2.2⟩
      else scanLines rest s.1 s.2.1 s.2.2

/-- `LinuxDistribution.FromReleaseInfo` (platform.ts lines 49-85). -/
def LinuxDistribution.FromReleaseInfo (releaseInfo : String) (eol : String) : LinuxDistribution :=
  scanLines (strSplitOn releaseInfo eol) unknownLit unknownLit none

/-- The `LinuxRuntimeId` constants (platform.ts lines 359-374). -/
def LinuxRuntimeId.unknown_distribution : String := "unknown_distribution"

def LinuxRuntimeId.unknown_version : String := "unknown_version"

def LinuxRuntimeId.centos_7 : String := "centos.7-x64"

def LinuxRuntimeId.debian_8 : String := "debian.8-x64"

def LinuxRuntimeId.fedora_23 : String := "fedora.23-x64"

def LinuxRuntimeId.fedora_24 : String := "fedora.24-x64"

def LinuxRuntimeId.opensuse_13_2 : String := "opensuse.13.2-x64"

def LinuxRuntimeId.opensuse_42_1 : String := "opensuse.42.1-x64"

def LinuxRuntimeId.rhel_7 : String := "rhel.7-x64"

def LinuxRuntimeId.ubuntu_14_04 : String := "ubuntu.14.04-x64"

def LinuxRuntimeId.ubuntu_16_04 : String := "ubuntu.16.04-x64"

def LinuxRuntimeId.ubuntu_16_10 : String := "ubuntu.16.10-x64"

/-- `PlatformInformation.getExactRuntimeId` (platform.ts lines 264-316):
the exact distribution-name table. A name missing from the table gives
`unknown_distribution`; a known name with an unknown version gives
`unknown_version`. -/
def PlatformInformation.getExactRuntimeId (distributionName distributionVersion : String) : String :=
  if distributionName == "ubuntu" then
    if distributionVersion == "14.04" then LinuxRuntimeId.ubuntu_14_04
    else if distributionVersion == "16.04" then LinuxRuntimeId.ubuntu_16_04
    else if distributionVersion == "16.10" then LinuxRuntimeId.ubuntu_16_10
    else LinuxRuntimeId.unknown_version
  else if distributionName == "linuxmint" then
    if strStarts distributionVersion "18" then LinuxRuntimeId.ubuntu_16_04
    else LinuxRuntimeId.unknown_version
  else if distributionName == "centos" || distributionName == "ol" then
    LinuxRuntimeId.centos_7
  else if distributionName == "fedora" then
    if distributionVersion == "23" then LinuxRuntimeId.fedora_23
    else if distributionVersion == "24" then LinuxRuntimeId.fedora_24
    else LinuxRuntimeId.unknown_version
  else if distributionName == "opensuse" then
    if strStarts distributionVersion "13." then LinuxRuntimeId.opensuse_13_2
    else if strStarts distributionVersion "42." then LinuxRuntimeId.opensuse_42_1
    else LinuxRuntimeId.unknown_version
  else if distributionName == "rhel" then LinuxRuntimeId.rhel_7
  else if distributionName == "debian" then LinuxRuntimeId.debian_8
  else LinuxRuntimeId.unknown_distribution

/-- `PlatformInformation.getRuntimeIdHelper` (platform.ts lines 318-356):
the exact table first, then the fuzzy table of derivative distributions. -/
def PlatformInformation.getRuntimeIdHelper (distributionName distributionVersion : String) : String :=
  let runtimeId := PlatformInformation.getExactRuntimeId distributionName distributionVersion
  if runtimeId != LinuxRuntimeId.unknown_distribution then runtimeId
  else if distributionName == "Zorin OS" || distributionName == "zorin" then
    if distributionVersion == "12" then LinuxRuntimeId.ubuntu_16_04
    else LinuxRuntimeId.unknown_version
  else if distributionName == "elementary" || distributionName == "elementary OS" then
    if strStarts distributionVersion "0.3" then LinuxRuntimeId.ubuntu_14_04
    else if strStarts distributionVersion "0.4" then LinuxRuntimeId.ubuntu_16_04
    else LinuxRuntimeId.unknown_version
  else if distributionName == "galliumos" then
    if strStarts distributionVersion "2.0" || strStarts distributionVersion "2.1" then
      LinuxRuntimeId.ubuntu_16_04
    else LinuxRuntimeId.unknown_version
  else LinuxRuntimeId.unknown_distribution

/-- The `for (let id of distribution.idLike)` loop of platform.ts lines
242-247: try each ancestor id with the original version, breaking at the
first result different from `unknown_distribution`; the last computed
value is kept when the loop runs out. -/
def PlatformInformation.idLikeLoop : List String → String → String → String
  | [], _, runtimeId => runtimeId
  | id :: rest, version, _ =>
    let runtimeId := PlatformInformation.getRuntimeIdHelper id version
    if runtimeId != LinuxRuntimeId.unknown_distribution then runtimeId
    else PlatformInformation.idLikeLoop rest version runtimeId

/-- The linux/x86_64 lookup chain of platform.ts lines 220-248: exact
lookup, then the fallback provider when a sentinel is pending, then the
fuzzy lookup, then the `ID_LIKE` ancestors. Produces the final
`runtimeId` string, possibly still a sentinel. -/
def PlatformInformation.linuxRuntimeIdChain (distribution : LinuxDistribution)
    (linuxFallbackRuntimeId : Option String) : String :=
  let runtimeId := PlatformInformation.getExactRuntimeId distribution.name distribution.version
  let runtimeId :=
    if runtimeId == LinuxRuntimeId.unknown_distribution
        || runtimeId == LinuxRuntimeId.unknown_version then
      match linuxFallbackRuntimeId with
      | some fallbackRuntimeValue =>
        if fallbackRuntimeValue != "" then fallbackRuntimeValue else runtimeId
      | none => runtimeId
    else runtimeId
  let runtimeId :=
    if runtimeId == LinuxRuntimeId.unknown_distribution then
      PlatformInformation.getRuntimeIdHelper distribution.name distribution.version
    else runtimeId
  if runtimeId == LinuxRuntimeId.unknown_distribution then
    match distribution.idLike with
    | some ids =>
      if 0 < ids.length then PlatformInformation.idLikeLoop ids distribution.version runtimeId
      else runtimeId
    | none => runtimeId
  else runtimeId

/-- `PlatformInformation.getRuntimeId` (platform.ts lines 196-262).
`throw` is modelled as `Except.error` with the thrown message; a `null`
`distribution` on the linux path is the JS `TypeError` from dereferencing
`distribution.name`, also an error. -/
def PlatformInformation.getRuntimeId (platform architecture : String)
    (distribution : Option LinuxDistribution)
    (linuxFallbackRuntimeId : Option String) : Except String String :=
  if platform == "win32" then
    if architecture == "x86" then Except.ok "win7-x86"
    else if architecture == "x86_64" then Except.ok "win7-x64"
    else Except.error ("Unsupported Windows architecture: " ++ architecture)
  else if platform == "darwin" then
    if architecture == "x86_64" then Except.ok "osx.10.11-x64"
    else Except.error ("Unsupported macOS architecture: " ++ architecture)
  else if platform == "linux" then
    match distribution with
    | none => Except.error "TypeError: Cannot read property of null"
    | some distribution =>
      if architecture == "x86_64" then
        let runtimeId := PlatformInformation.linuxRuntimeIdChain distribution linuxFallbackRuntimeId
        if runtimeId != LinuxRuntimeId.unknown_distribution
            && runtimeId != LinuxRuntimeId.unknown_version then
          Except.ok runtimeId
        else
          Except.error ("Unsupported Linux distro: " ++ distribution.name ++ ", "
            ++ distribution.version ++ ", " ++ architecture)
      else
        Except.error ("Unsupported Linux distro: " ++ distribution.name ++ ", "
          ++ distribution.version ++ ", " ++ architecture)
  else
    Except.error ("Unsupported platform " ++ platform)

/-- The `PlatformInformation` value after construction (platform.ts
lines 88-103): `runtimeId` is `null` (`none`) when `getRuntimeId` threw. -/
structure PlatformInformation where
  platform : String
  architecture : String
  distribution : Option LinuxDistribution
  runtimeId : Option String
deriving DecidableEq, Repr

/-- The `PlatformInformation` constructor (platform.ts lines 91-103): the
`try/catch` converts any error from `getRuntimeId` into an absent
`runtimeId`; the other fields always keep the supplied values. -/
def PlatformInformation.construct (platform architecture : String)
    (distribution : Option LinuxDistribution)
    (linuxFallbackRuntimeId : Option String) : PlatformInformation :=
  { platform := platform
    architecture := architecture
    distribution := distribution
    runtimeId :=
      match PlatformInformation.getRuntimeId platform architecture distribution linuxFallbackRuntimeId with
      | Except.ok rid => some rid
      | Except.error _ => none }

deriving instance DecidableEq for Except

/-! ### Helper lemmas shared by several claims -/

/-- Unfolding of `stripQuotes` with its `let` reduced. -/
lemma stripQuotes_eq (v : String) :
    stripQuotes v =
      if 1 < v.toList.length && v.toList.head? == some '"' && v.toList.getLast? == some '"' then
        String.mk ((v.toList.drop 1).dropLast)
      else v := rfl

/-- A list whose `getLast?` is `some x` is its `dropLast` with `x` appended. -/
lemma list_eq_dropLast_append {α : Type} (l : List α) (x : α)
    (h : l.getLast? = some x) : l = l.dropLast ++ [x] := by
  induction l with
  | nil => simp at h
  | cons a t ih =>
    cases t with
    | nil =>
      simp [List.getLast?] at h
      simp [h]
    | cons b t' =>
      rw [List.getLast?_cons_cons] at h
      have := ih h
      rw [List.dropLast_cons₂]
      exact congrArg (a :: ·) this

/-- When the exact lookup recognizes the distribution name, the fuzzy
helper returns exactly the exact lookup's answer. -/
lemma getRuntimeIdHelper_of_exact_ne (n v : String)
    (h : PlatformInformation.getExactRuntimeId n v ≠ LinuxRuntimeId.unknown_distribution) :
    PlatformInformation.getRuntimeIdHelper n v = PlatformInformation.getExactRuntimeId n v := by
  unfold PlatformInformation.getRuntimeIdHelper
  simp [h]

/-- If even the fuzzy helper reports an unknown distribution, so did the exact lookup. -/
lemma exact_ud_of_helper_ud (n v : String)
    (h : PlatformInformation.getRuntimeIdHelper n v = LinuxRuntimeId.unknown_distribution) :
    PlatformInformation.getExactRuntimeId n v = LinuxRuntimeId.unknown_distribution := by
  by_cases he : PlatformInformation.getExactRuntimeId n v = LinuxRuntimeId.unknown_distribution
  · exact he
  · rw [getRuntimeIdHelper_of_exact_ne n v he] at h
    exact absurd h he

/-- When the exact lookup produces a real runtime id, the whole linux
chain returns it, whatever the fallback provider is. -/
lemma linuxRuntimeIdChain_exact_real (d : LinuxDistribution) (fb : Option String)
    (h1 : PlatformInformation.getExactRuntimeId d.name d.version ≠ LinuxRuntimeId.unknown_distribution)
    (h2 : PlatformInformation.getExactRuntimeId d.name d.version ≠ LinuxRuntimeId.unknown_version) :
    PlatformInformation.linuxRuntimeIdChain d fb
      = PlatformInformation.getExactRuntimeId d.name d.version := by
  unfold PlatformInformation.linuxRuntimeIdChain
  simp [h1, h2]

/-- When the exact lookup ends in a sentinel and the provider returns a
non-empty string other than `unknown_distribution`, the chain adopts it. -/
lemma linuxRuntimeIdChain_fallback_adopted (d : LinuxDistribution) (s : String)
    (h0 : PlatformInformation.getExactRuntimeId d.name d.version = LinuxRuntimeId.unknown_distribution
      ∨ PlatformInformation.getExactRuntimeId d.name d.version = LinuxRuntimeId.unknown_version)
    (h1 : s ≠ "") (h2 : s ≠ LinuxRuntimeId.unknown_distribution) :
    PlatformInformation.linuxRuntimeIdChain d (some s) = s := by
  unfold PlatformInformation.linuxRuntimeIdChain
  rcases h0 with h0 | h0 <;> simp [h0, h1, h2]

/-- The linux/x86_64 branch of `getRuntimeId` returns the chain value
when the chain does not end in a sentinel. -/
lemma getRuntimeId_linux_of_chain_real (d : LinuxDistribution) (fb : Option String)
    (h1 : PlatformInformation.linuxRuntimeIdChain d fb ≠ LinuxRuntimeId.unknown_distribution)
    (h2 : PlatformInformation.linuxRuntimeIdChain d fb ≠ LinuxRuntimeId.unknown_version) :
    PlatformInformation.getRuntimeId "linux" "x86_64" (some d) fb
      = Except.ok (PlatformInformation.linuxRuntimeIdChain d fb) := by
  unfold PlatformInformation.getRuntimeId
  simp [h1, h2]

/-- The linux/x86_64 branch of `getRuntimeId` throws when the chain ends
in a sentinel. -/
lemma getRuntimeId_linux_of_chain_sentinel (d : LinuxDistribution) (fb : Option String)
    (h : PlatformInformation.linuxRuntimeIdChain d fb = LinuxRuntimeId.unknown_distribution
      ∨ PlatformInformation.linuxRuntimeIdChain d fb = LinuxRuntimeId.unknown_version) :
    PlatformInformation.getRuntimeId "linux" "x86_64" (some d) fb
      = Except.error ("Unsupported Linux distro: " ++ d.name ++ ", " ++ d.version ++ ", " ++ "x86_64") := by
  unfold PlatformInformation.getRuntimeId
  rcases h with h | h <;> simp [h]

/-- If every tried ancestor id yields a sentinel, the `ID_LIKE` loop
ends in a sentinel. -/
lemma idLikeLoop_sentinel (ids : List String) (v : String) : ∀ r : String,
    (∀ id ∈ ids,
      PlatformInformation.getRuntimeIdHelper id v = LinuxRuntimeId.unknown_distribution
      ∨ PlatformInformation.getRuntimeIdHelper id v = LinuxRuntimeId.unknown_version) →
    (r = LinuxRuntimeId.unknown_distribution ∨ r = LinuxRuntimeId.unknown_version) →
    (PlatformInformation.idLikeLoop ids v r = LinuxRuntimeId.unknown_distribution
    ∨ PlatformInformation.idLikeLoop ids v r = LinuxRuntimeId.unknown_version) := by
  induction ids with
  | nil =>
    intro r _ hr
    simpa [PlatformInformation.idLikeLoop] using hr
  | cons id rest ih =>
    intro r hids hr
    have hid := hids id (by simp)
    rcases hid with hid | hid
    · have hrec := ih (PlatformInformation.getRuntimeIdHelper id v)
        (fun i hi => hids i (by simp [hi])) (Or.inl hid)
      simpa [PlatformInformation.idLikeLoop, hid, LinuxRuntimeId.unknown_distribution,
        LinuxRuntimeId.unknown_version] using hrec
    · simp [PlatformInformation.idLikeLoop, hid, LinuxRuntimeId.unknown_distribution,
        LinuxRuntimeId.unknown_version]

/-- If the fuzzy helper yields a sentinel for the distribution name and
for every `ID_LIKE` ancestor, the whole no-fallback chain ends in a
sentinel. -/
lemma linuxRuntimeIdChain_sentinel (d : LinuxDistribution)
    (hname : PlatformInformation.getRuntimeIdHelper d.name d.version = LinuxRuntimeId.unknown_distribution
      ∨ PlatformInformation.getRuntimeIdHelper d.name d.version = LinuxRuntimeId.unknown_version)
    (hids : ∀ l, d.idLike = some l → ∀ id ∈ l,
      PlatformInformation.getRuntimeIdHelper id d.version = LinuxRuntimeId.unknown_distribution
      ∨ PlatformInformation.getRuntimeIdHelper id d.version = LinuxRuntimeId.unknown_version) :
    PlatformInformation.linuxRuntimeIdChain d none = LinuxRuntimeId.unknown_distribution
    ∨ PlatformInformation.linuxRuntimeIdChain d none = LinuxRuntimeId.unknown_version := by
  by_cases hud : PlatformInformation.getExactRuntimeId d.name d.version
      = LinuxRuntimeId.unknown_distribution
  · unfold PlatformInformation.linuxRuntimeIdChain
    rcases hname with hn | hn
    · cases hl : d.idLike with
      | none =>
        simp [hud, hn, hl, LinuxRuntimeId.unknown_distribution, LinuxRuntimeId.unknown_version]
      | some l =>
        rcases Nat.eq_zero_or_pos l.length with h0 | h0
        · simp [hud, hn, hl, h0, LinuxRuntimeId.unknown_distribution,
            LinuxRuntimeId.unknown_version]
        · have hrec := idLikeLoop_sentinel l d.version
            (PlatformInformation.getRuntimeIdHelper d.name d.version)
            (hids l hl) (Or.inl hn)
          simpa [hud, hn, hl, h0, LinuxRuntimeId.unknown_distribution,
            LinuxRuntimeId.unknown_version] using hrec
    · simp [hud, hn, LinuxRuntimeId.unknown_distribution, LinuxRuntimeId.unknown_version]
  · have hh := getRuntimeIdHelper_of_exact_ne d.name d.version hud
    have huv : PlatformInformation.getExactRuntimeId d.name d.version
        = LinuxRuntimeId.unknown_version := by
      rcases hname with hn | hn
      · exact absurd (hh.symm.trans hn) hud
      · exact hh.symm.trans hn
    unfold PlatformInformation.linuxRuntimeIdChain
    simp [huv, LinuxRuntimeId.unknown_distribution, LinuxRuntimeId.unknown_version]

/-- A runtime id actually returned by `getRuntimeId` is never one of the
two in-band sentinels (they are filtered by the final gate). -/
lemma getRuntimeId_ok_not_sentinel (p a : String) (d : Option LinuxDistribution)
    (fb : Option String) (s : String)
    (h : PlatformInformation.getRuntimeId p a d fb = Except.ok s) :
    s ≠ LinuxRuntimeId.unknown_distribution ∧ s ≠ LinuxRuntimeId.unknown_version := by
  simp only [PlatformInformation.getRuntimeId] at h
  repeat' split at h
  all_goals first
    | (cases h <;> decide)
    | (injection h with h; subst h
       rename_i hgate
       simpa [Bool.and_eq_true, bne_iff_ne] using hgate)

/-- A provider that returns the literal `unknown_distribution` leaves the
chain exactly where the no-provider chain ends: resolution continues past
the adopted sentinel. -/
lemma linuxRuntimeIdChain_fb_ud (d : LinuxDistribution) :
    PlatformInformation.linuxRuntimeIdChain d (some LinuxRuntimeId.unknown_distribution)
      = PlatformInformation.linuxRuntimeIdChain d none := by
  by_cases hud : PlatformInformation.getExactRuntimeId d.name d.version
      = LinuxRuntimeId.unknown_distribution
  · unfold PlatformInformation.linuxRuntimeIdChain
    simp [hud, LinuxRuntimeId.unknown_distribution]
  · by_cases huv : PlatformInformation.getExactRuntimeId d.name d.version
        = LinuxRuntimeId.unknown_version
    · have hh := getRuntimeIdHelper_of_exact_ne d.name d.version hud
      unfold PlatformInformation.linuxRuntimeIdChain
      simp [huv, hh, LinuxRuntimeId.unknown_distribution, LinuxRuntimeId.unknown_version]
    · rw [linuxRuntimeIdChain_exact_real d _ hud huv,
        linuxRuntimeIdChain_exact_real d none hud huv]

/-! ### Claims -/

/-- C1, counterexample: the claim says galliumos 2.0 resolves to
`ubuntu.14.04-x64`; the code resolves it to `ubuntu.16.04-x64`
(platform.ts lines 345-349 map galliumos 2.0/2.1 to the Ubuntu 16.04 id). -/
theorem claim_C1_counterexample :
    PlatformInformation.getRuntimeId "linux" "x86_64" (some ⟨"galliumos", "2.0", none⟩) none
      = Except.ok "ubuntu.16.04-x64"
    ∧ PlatformInformation.getRuntimeId "linux" "x86_64" (some ⟨"galliumos", "2.0", none⟩) none
      ≠ Except.ok "ubuntu.14.04-x64" := by
  decide

/-- C1, amended: for linux/x86_64, (name="galliumos", version="2.0", no
idLike) resolves to `ubuntu.16.04-x64`, and any name recognized by
neither the exact nor the fuzzy table, with idLike=["ubuntu"] and
version "14.04", resolves through the ancestor to `ubuntu.14.04-x64`. -/
theorem claim_C1_amended :
    PlatformInformation.getRuntimeId "linux" "x86_64" (some ⟨"galliumos", "2.0", none⟩) none
      = Except.ok "ubuntu.16.04-x64"
    ∧ ∀ name : String,
        PlatformInformation.getRuntimeIdHelper name "14.04" = LinuxRuntimeId.unknown_distribution →
        PlatformInformation.getRuntimeId "linux" "x86_64" (some ⟨name, "14.04", some ["ubuntu"]⟩) none
          = Except.ok "ubuntu.14.04-x64" := by
  constructor
  · decide
  · intro name h
    have hex := exact_ud_of_helper_ud name "14.04" h
    have hu : PlatformInformation.getRuntimeIdHelper "ubuntu" "14.04"
        = LinuxRuntimeId.ubuntu_14_04 := by decide
    have hchain : PlatformInformation.linuxRuntimeIdChain ⟨name, "14.04", some ["ubuntu"]⟩ none
        = "ubuntu.14.04-x64" := by
      unfold PlatformInformation.linuxRuntimeIdChain
      simp [hex, h, PlatformInformation.idLikeLoop, hu, LinuxRuntimeId.unknown_distribution,
        LinuxRuntimeId.unknown_version, LinuxRuntimeId.ubuntu_14_04]
    rw [getRuntimeId_linux_of_chain_real _ none (by rw [hchain]; decide) (by rw [hchain]; decide),
      hchain]

/-- C1, witness for the amended claim at the concrete name "arch". -/
theorem claim_C1_witness :
    PlatformInformation.getRuntimeIdHelper "arch" "14.04" = LinuxRuntimeId.unknown_distribution
    ∧ PlatformInformation.getRuntimeId "linux" "x86_64" (some ⟨"arch", "14.04", some ["ubuntu"]⟩) none
      = Except.ok "ubuntu.14.04-x64" :=
  ⟨by decide, claim_C1_amended.2 "arch" (by decide)⟩

/-- C2, counterexample: for a distribution ending in a sentinel with no
fallback, a provider returning the non-empty string "unknown_version" is
adopted as a pending sentinel and resolution then fails instead of
returning that string. -/
theorem claim_C2_counterexample :
    PlatformInformation.getRuntimeId "linux" "x86_64" (some ⟨"mydistro", "1.0", none⟩) none
      = Except.error ("Unsupported Linux distro: " ++ "mydistro" ++ ", " ++ "1.0" ++ ", " ++ "x86_64")
    ∧ ("unknown_version" : String) ≠ ""
    ∧ PlatformInformation.getRuntimeId "linux" "x86_64" (some ⟨"mydistro", "1.0", none⟩)
        (some "unknown_version") ≠ Except.ok "unknown_version" := by
  decide

/-- C2, amended: when the no-fallback chain would fail and the provider
returns a non-empty, non-sentinel string, resolution returns exactly that
string; and when the exact lookup already produced a real runtime id, the
result is that id regardless of any fallback provider. -/
theorem claim_C2_amended :
    (∀ (d : LinuxDistribution) (s : String),
      (∃ e, PlatformInformation.getRuntimeId "linux" "x86_64" (some d) none = Except.error e) →
      s ≠ "" → s ≠ LinuxRuntimeId.unknown_distribution → s ≠ LinuxRuntimeId.unknown_version →
      PlatformInformation.getRuntimeId "linux" "x86_64" (some d) (some s) = Except.ok s)
    ∧ (∀ (d : LinuxDistribution) (fb : Option String),
      PlatformInformation.getExactRuntimeId d.name d.version ≠ LinuxRuntimeId.unknown_distribution →
      PlatformInformation.getExactRuntimeId d.name d.version ≠ LinuxRuntimeId.unknown_version →
      PlatformInformation.getRuntimeId "linux" "x86_64" (some d) fb
        = Except.ok (PlatformInformation.getExactRuntimeId d.name d.version)) := by
  have hreal : ∀ (d : LinuxDistribution) (fb : Option String),
      PlatformInformation.getExactRuntimeId d.name d.version ≠ LinuxRuntimeId.unknown_distribution →
      PlatformInformation.getExactRuntimeId d.name d.version ≠ LinuxRuntimeId.unknown_version →
      PlatformInformation.getRuntimeId "linux" "x86_64" (some d) fb
        = Except.ok (PlatformInformation.getExactRuntimeId d.name d.version) := by
    intro d fb h1 h2
    have hc := linuxRuntimeIdChain_exact_real d fb h1 h2
    rw [getRuntimeId_linux_of_chain_real d fb (by rw [hc]; exact h1) (by rw [hc]; exact h2), hc]
  refine ⟨?_, hreal⟩
  rintro d s ⟨e, he⟩ hs hsud hsuv
  have hsent : PlatformInformation.getExactRuntimeId d.name d.version
        = LinuxRuntimeId.unknown_distribution
      ∨ PlatformInformation.getExactRuntimeId d.name d.version
        = LinuxRuntimeId.unknown_version := by
    by_contra hcon
    push_neg at hcon
    rw [hreal d none hcon.1 hcon.2] at he
    exact Except.noConfusion he
  have hc := linuxRuntimeIdChain_fallback_adopted d s hsent hs hsud
  rw [getRuntimeId_linux_of_chain_real d (some s) (by rw [hc]; exact hsud)
    (by rw [hc]; exact hsuv), hc]

/-- C2, witness: with distribution (voiddistro, 3.3) the chain fails, and
a provider returning "my.custom-rid" makes resolution return it; with
(ubuntu, 16.04) the exact id is returned past any provider. -/
theorem claim_C2_witness :
    PlatformInformation.getRuntimeId "linux" "x86_64" (some ⟨"voiddistro", "3.3", none⟩)
        (some "my.custom-rid") = Except.ok "my.custom-rid"
    ∧ PlatformInformation.getRuntimeId "linux" "x86_64" (some ⟨"ubuntu", "16.04", none⟩)
        (some "my.custom-rid")
      = Except.ok (PlatformInformation.getExactRuntimeId "ubuntu" "16.04") :=
  ⟨claim_C2_amended.1 ⟨"voiddistro", "3.3", none⟩ "my.custom-rid"
      ⟨"Unsupported Linux distro: " ++ "voiddistro" ++ ", " ++ "3.3" ++ ", " ++ "x86_64", by decide⟩
      (by decide) (by decide) (by decide),
    claim_C2_amended.2 ⟨"ubuntu", "16.04", none⟩ (some "my.custom-rid") (by decide) (by decide)⟩

/-- C4: the release-info parser is total; the sample two-key input parses
to (ubuntu, 16.04, no idLike); the empty input parses to the unknown
sentinels; and any line without an `=` character is skipped without
affecting the scan state. -/
theorem claim_C4 :
    LinuxDistribution.FromReleaseInfo "ID=ubuntu\nVERSION_ID=\"16.04\"\n" "\n"
      = ⟨"ubuntu", "16.04", none⟩
    ∧ LinuxDistribution.FromReleaseInfo "" "\n" = ⟨"unknown", "unknown", none⟩
    ∧ ∀ (line : String) (rest : List String) (name version : String)
        (idLike : Option (List String)),
        '=' ∉ (strTrim line).toList →
        scanLines (line :: rest) name version idLike = scanLines rest name version idLike := by
  refine ⟨by decide, by decide, ?_⟩
  intro line rest name version idLike h
  have h' : '=' ∉ (strTrim line).data := h
  have hkv : splitKeyValue (strTrim line) = none := by
    simp [splitKeyValue, h']
  simp [scanLines, hkv]

/-- C4, witness: a comment line with no `=` is skipped. -/
theorem claim_C4_witness :
    scanLines ["# pretty name unset"] "a" "b" none = scanLines [] "a" "b" none :=
  claim_C4.2.2 "# pretty name unset" [] "a" "b" none (by decide)

/-- C7: windows maps architecture "x86" to `win7-x86` and "x86_64" to
`win7-x64` and throws on every other architecture; macos maps "x86_64"
to the fixed literal `osx.10.11-x64` and throws on every other
architecture. -/
theorem claim_C7 : ∀ (d : Option LinuxDistribution) (fb : Option String),
    PlatformInformation.getRuntimeId "win32" "x86" d fb = Except.ok "win7-x86"
    ∧ PlatformInformation.getRuntimeId "win32" "x86_64" d fb = Except.ok "win7-x64"
    ∧ (∀ a : String, a ≠ "x86" → a ≠ "x86_64" →
        PlatformInformation.getRuntimeId "win32" a d fb
          = Except.error ("Unsupported Windows architecture: " ++ a))
    ∧ PlatformInformation.getRuntimeId "darwin" "x86_64" d fb = Except.ok "osx.10.11-x64"
    ∧ (∀ a : String, a ≠ "x86_64" →
        PlatformInformation.getRuntimeId "darwin" a d fb
          = Except.error ("Unsupported macOS architecture: " ++ a)) := by
  intro d fb
  refine ⟨rfl, rfl, ?_, rfl, ?_⟩
  · intro a h1 h2
    unfold PlatformInformation.getRuntimeId
    simp [h1, h2]
  · intro a h1
    unfold PlatformInformation.getRuntimeId
    simp [h1]

/-- C7, witness at the unsupported architecture "arm64". -/
theorem claim_C7_witness :
    PlatformInformation.getRuntimeId "win32" "arm64" none none
      = Except.error ("Unsupported Windows architecture: " ++ "arm64")
    ∧ PlatformInformation.getRuntimeId "darwin" "arm64" none none
      = Except.error ("Unsupported macOS architecture: " ++ "arm64") :=
  ⟨(claim_C7 none none).2.2.1 "arm64" (by decide) (by decide),
    (claim_C7 none none).2.2.2.2 "arm64" (by decide)⟩

/-- C8: for linux/x86_64, (ubuntu, 16.04) resolves to `ubuntu.16.04-x64`
and (linuxmint, 18.1) resolves to the same runtime id. -/
theorem claim_C8 :
    PlatformInformation.getRuntimeId "linux" "x86_64" (some ⟨"ubuntu", "16.04", none⟩) none
      = Except.ok "ubuntu.16.04-x64"
    ∧ PlatformInformation.getRuntimeId "linux" "x86_64" (some ⟨"linuxmint", "18.1", none⟩) none
      = PlatformInformation.getRuntimeId "linux" "x86_64" (some ⟨"ubuntu", "16.04", none⟩) none := by
  decide

/-- C3: when the fuzzy helper yields a sentinel for the distribution name
and for every idLike ancestor and no fallback provider is supplied,
construction still succeeds: the runtime id is absent and the platform,
architecture and distribution fields keep the detected values. -/
theorem claim_C3 : ∀ (name version : String) (idLike : Option (List String)),
    (PlatformInformation.getRuntimeIdHelper name version = LinuxRuntimeId.unknown_distribution
      ∨ PlatformInformation.getRuntimeIdHelper name version = LinuxRuntimeId.unknown_version) →
    (∀ l, idLike = some l → ∀ id ∈ l,
      PlatformInformation.getRuntimeIdHelper id version = LinuxRuntimeId.unknown_distribution
      ∨ PlatformInformation.getRuntimeIdHelper id version = LinuxRuntimeId.unknown_version) →
    PlatformInformation.construct "linux" "x86_64" (some ⟨name, version, idLike⟩) none
      = ⟨"linux", "x86_64", some ⟨name, version, idLike⟩, none⟩ := by
  intro name version idLike hname hids
  have hsent := linuxRuntimeIdChain_sentinel ⟨name, version, idLike⟩ hname hids
  have herr := getRuntimeId_linux_of_chain_sentinel ⟨name, version, idLike⟩ none hsent
  simp [PlatformInformation.construct, herr]

/-- C3, witness at the unrecognized distribution (somedistro, 9.9). -/
theorem claim_C3_witness :
    PlatformInformation.construct "linux" "x86_64" (some ⟨"somedistro", "9.9", none⟩) none
      = ⟨"linux", "x86_64", some ⟨"somedistro", "9.9", none⟩, none⟩ :=
  claim_C3 "somedistro" "9.9" none (by decide) (fun l h => nomatch h)

/-- C5: a parsed value is stripped of exactly one double quote at each
end precisely when it is longer than one character and starts and ends
with a double quote (the stripped middle is kept verbatim); otherwise it
is returned unchanged, and a lone double quote is returned unchanged. -/
theorem claim_C5 :
    (∀ v : String,
      1 < v.toList.length → v.toList.head? = some '"' → v.toList.getLast? = some '"' →
      v.toList = '"' :: ((stripQuotes v).toList ++ ['"']))
    ∧ (∀ v : String,
      ¬ (1 < v.toList.length ∧ v.toList.head? = some '"' ∧ v.toList.getLast? = some '"') →
      stripQuotes v = v)
    ∧ stripQuotes "\"" = "\"" := by
  refine ⟨?_, ?_, by decide⟩
  · intro v h1 h2 h3
    have hb : (1 < v.toList.length && v.toList.head? == some '"'
        && v.toList.getLast? == some '"') = true := by
      simp only [Bool.and_eq_true, decide_eq_true_eq, beq_iff_eq]
      exact ⟨⟨h1, h2⟩, h3⟩
    rw [stripQuotes_eq, if_pos hb]
    show v.toList = '"' :: ((v.toList.drop 1).dropLast ++ ['"'])
    cases hcs : v.toList with
    | nil => rw [hcs] at h2; simp at h2
    | cons c t =>
      rw [hcs] at h1 h2 h3
      simp only [List.head?_cons, Option.some.injEq] at h2
      subst h2
      cases t with
      | nil => simp at h1
      | cons b t' =>
        rw [List.getLast?_cons_cons] at h3
        have ht := list_eq_dropLast_append (b :: t') '"' h3
        simp only [List.drop_succ_cons, List.drop_zero]
        rw [← ht]
  · intro v h
    have hb : ¬ ((1 < v.toList.length && v.toList.head? == some '"'
        && v.toList.getLast? == some '"') = true) := by
      simpa [and_assoc] using h
    rw [stripQuotes_eq, if_neg hb]

/-- C5, witness: the quoted value `"16.04"` is stripped to its middle,
and the unquoted value `abc` is returned unchanged. -/
theorem claim_C5_witness :
    "\"16.04\"".toList = '"' :: ((stripQuotes "\"16.04\"").toList ++ ['"'])
    ∧ stripQuotes "abc" = "abc" :=
  ⟨claim_C5.1 "\"16.04\"" (by decide) (by decide) (by decide),
    claim_C5.2.1 "abc" (by decide)⟩

/-- C6: once a key/value line makes the name and version both differ
from "unknown" with the ID_LIKE key seen, the scan stops: the result is
the state just computed, and any remaining lines are irrelevant. -/
theorem claim_C6 : ∀ (line : String) (rest rest' : List String)
    (name version : String) (idLike : Option (List String))
    (key rawValue n' v' : String) (i' : Option (List String)),
    splitKeyValue (strTrim line) = some (key, rawValue) →
    applyKeyValue key (stripQuotes rawValue) name version idLike = (n', v', i') →
    scanDone n' v' i' = true →
    scanLines (line :: rest) name version idLike = ⟨n', v', i'⟩
    ∧ scanLines (line :: rest) name version idLike
      = scanLines (line :: rest') name version idLike := by
  intro line rest rest' name version idLike key rawValue n' v' i' hkv happ hdone
  have h1 : ∀ r : List String, scanLines (line :: r) name version idLike = ⟨n', v', i'⟩ := by
    intro r
    simp only [scanLines, hkv]
    rw [happ]
    simp [hdone]
  exact ⟨h1 rest, (h1 rest).trans (h1 rest').symm⟩

/-- C6, witness: an `ID_LIKE` line completing the (name, version, idLike)
triple ends the scan and a later duplicate `ID` line has no effect. -/
theorem claim_C6_witness :
    scanLines ["ID_LIKE=debian", "ID=overwritten"] "ubuntu" "16.04" none
      = ⟨"ubuntu", "16.04", some ["debian"]⟩
    ∧ scanLines ["ID_LIKE=debian", "ID=overwritten"] "ubuntu" "16.04" none
      = scanLines ["ID_LIKE=debian"] "ubuntu" "16.04" none :=
  claim_C6 "ID_LIKE=debian" ["ID=overwritten"] [] "ubuntu" "16.04" none "ID_LIKE" "debian"
    "ubuntu" "16.04" (some ["debian"]) (by decide) (by decide) (by decide)

/-- C9: the constructed runtime id is never one of the in-band sentinel
strings (the final gate filters them), and a provider returning the
literal "unknown_distribution" is continued past, leaving the chain where
the provider-less chain ends. -/
theorem claim_C9 :
    (∀ (p a : String) (d : Option LinuxDistribution) (fb : Option String),
      (PlatformInformation.construct p a d fb).runtimeId
          ≠ some LinuxRuntimeId.unknown_distribution
      ∧ (PlatformInformation.construct p a d fb).runtimeId
          ≠ some LinuxRuntimeId.unknown_version)
    ∧ (∀ d : LinuxDistribution,
      PlatformInformation.linuxRuntimeIdChain d (some LinuxRuntimeId.unknown_distribution)
        = PlatformInformation.linuxRuntimeIdChain d none) := by
  refine ⟨?_, fun d => linuxRuntimeIdChain_fb_ud d⟩
  intro p a d fb
  cases h : PlatformInformation.getRuntimeId p a d fb with
  | ok s =>
    have hs := getRuntimeId_ok_not_sentinel p a d fb s h
    simp [PlatformInformation.construct, h, hs.1, hs.2]
  | error e =>
    simp [PlatformInformation.construct, h]

/-- C9, witness at a concrete input whose provider returns the sentinel
"unknown_distribution" verbatim. -/
theorem claim_C9_witness :
    (PlatformInformation.construct "linux" "x86_64" (some ⟨"unknowndistro", "5", none⟩)
        (some "unknown_distribution")).runtimeId ≠ some LinuxRuntimeId.unknown_distribution
    ∧ (PlatformInformation.construct "linux" "x86_64" (some ⟨"unknowndistro", "5", none⟩)
        (some "unknown_distribution")).runtimeId ≠ some LinuxRuntimeId.unknown_version :=
  claim_C9.1 "linux" "x86_64" (some ⟨"unknowndistro", "5", none⟩) (some "unknown_distribution")

/-- C10: construction is total for every platform, architecture,
distribution and fallback provider: the supplied fields are always kept,
every error inside runtime-id resolution (including the
unsupported-platform error) becomes an absent runtime id, and a
successful resolution becomes a present one. -/
theorem claim_C10 : ∀ (p a : String) (d : Option LinuxDistribution) (fb : Option String),
    ((PlatformInformation.construct p a d fb).platform = p
      ∧ (PlatformInformation.construct p a d fb).architecture = a
      ∧ (PlatformInformation.construct p a d fb).distribution = d)
    ∧ (∀ e, PlatformInformation.getRuntimeId p a d fb = Except.error e →
        (PlatformInformation.construct p a d fb).runtimeId = none)
    ∧ (∀ r, PlatformInformation.getRuntimeId p a d fb = Except.ok r →
        (PlatformInformation.construct p a d fb).runtimeId = some r) := by
  intro p a d fb
  refine ⟨⟨rfl, rfl, rfl⟩, ?_, ?_⟩
  · intro e h
    simp [PlatformInformation.construct, h]
  · intro r h
    simp [PlatformInformation.construct, h]

/-- C10, witness at the unsupported platform "freebsd". -/
theorem claim_C10_witness :
    PlatformInformation.getRuntimeId "freebsd" "x86_64" none none
      = Except.error ("Unsupported platform " ++ "freebsd")
    ∧ (PlatformInformation.construct "freebsd" "x86_64" none none).runtimeId = none :=
  ⟨by decide, (claim_C10 "freebsd" "x86_64" none none).2.1
    ("Unsupported platform " ++ "freebsd") (by decide)⟩
